import Mathlib

/-!
Verification of the travel_master tool layer (src/tools.py).

The four tools (FlightSearchTool, HotelSearchTool, NearbyPlacesTool,
ExchangeRateTool) are thin sequential wrappers around HTTP calls.  We embed
them shallowly: each HTTP response the Python code inspects becomes a Lean
structure carrying exactly the fields the code reads; exceptions become
`Except String`; the mutable token cache becomes explicit state passing;
`time.time()` (a float used only for ordering and adding whole seconds)
is modelled as an integer timestamp; numeric JSON payloads that the code
merely passes through untouched (coordinates, rates, amounts) are modelled
as `Int`.
-/

namespace TravelMaster

deriving instance DecidableEq for Except

/-! ## Token cache (src/tools.py lines 54-86 and 215-254)

`_amadeus_token` is a dict `{"access_token": None, "expires_at": 0}`;
`get_amadeus_token` returns the cached token when it is truthy and
`time.time() < expires_at`, otherwise POSTs a credential exchange, raises on
non-200, and stores `expires_at = time.time() + expires_in - 60`.
We thread the state explicitly and also return how many credential-exchange
requests the call performed (0 or 1). -/

structure TokenState where
  access_token : Option String
  expires_at : Int
deriving DecidableEq, Repr

/-- The fields of the provider's credential-exchange response that the code
reads: HTTP status, body text (used in the raised message), and the parsed
`access_token` / `expires_in`. -/
structure TokenResponse where
  status_code : Nat
  text : String
  access_token : String
  expires_in : Int
deriving DecidableEq, Repr

/-- Python truthiness of the cached `access_token` value (`None` and the
empty string are falsy). -/
def pyTruthyToken : Option String → Bool
  | none => false
  | some s => s ≠ ""

def FlightSearchTool.get_amadeus_token (st : TokenState) (now : Int)
    (resp : TokenResponse) : Except String (String × TokenState) × Nat :=
  if pyTruthyToken st.access_token = true ∧ now < st.expires_at then
    (.ok (st.access_token.getD "", st), 0)
  else if resp.status_code ≠ 200 then
    (.error ("Amadeus 토큰 발급 실패: " ++ resp.text), 1)
  else
    (.ok (resp.access_token,
      { access_token := some resp.access_token,
        expires_at := now + resp.expires_in - 60 }), 1)

/-- `HotelSearchTool.get_amadeus_token` (lines 225-254) is a verbatim copy of
the flight tool's method; only the cache's initialization site differs. -/
def HotelSearchTool.get_amadeus_token (st : TokenState) (now : Int)
    (resp : TokenResponse) : Except String (String × TokenState) × Nat :=
  if pyTruthyToken st.access_token = true ∧ now < st.expires_at then
    (.ok (st.access_token.getD "", st), 0)
  else if resp.status_code ≠ 200 then
    (.error ("Amadeus 토큰 발급 실패: " ++ resp.text), 1)
  else
    (.ok (resp.access_token,
      { access_token := some resp.access_token,
        expires_at := now + resp.expires_in - 60 }), 1)

/-! ## City-code resolution (lines 88-123 and 256-283) -/

/-- The flight tool's static city→IATA table, in source order. -/
def FlightSearchTool.city_codes : List (String × String) :=
  [("서울", "SEL"), ("부산", "PUS"), ("제주", "CJU"), ("대구", "TAE"), ("인천", "ICN"),
   ("오사카", "OSA"), ("도쿄", "TYO"), ("후쿠오카", "FUK"), ("삿포로", "SPK"), ("나고야", "NGO"),
   ("오키나와", "OKA"), ("교토", "UKY"), ("요코하마", "YOK"), ("히로시마", "HIJ"),
   ("베이징", "BJS"), ("상하이", "SHA"), ("광저우", "CAN"), ("선전", "SZX"), ("칭다오", "TAO"),
   ("홍콩", "HKG"), ("마카오", "MFM"), ("시안", "SIA"),
   ("타이베이", "TPE"), ("가오슝", "KHH"),
   ("방콕", "BKK"), ("푸켓", "HKT"), ("치앙마이", "CNX"),
   ("하노이", "HAN"), ("호치민", "SGN"), ("다낭", "DAD"), ("나트랑", "NHA"),
   ("마닐라", "MNL"), ("세부", "CEB"), ("보라카이", "MPH"),
   ("싱가포르", "SIN"),
   ("쿠알라룸푸르", "KUL"), ("코타키나발루", "BKI"), ("페낭", "PEN"),
   ("자카르타", "JKT"), ("발리", "DPS"), ("족자카르타", "JOG"),
   ("델리", "DEL"), ("뭄바이", "BOM"), ("방갈로르", "BLR")]

/-- The hotel tool's static city→IATA table, in source order. -/
def HotelSearchTool.city_codes : List (String × String) :=
  [("서울", "SEL"), ("부산", "PUS"), ("제주", "CJU"), ("인천", "ICN"), ("대구", "TAE"),
   ("오사카", "OSA"), ("도쿄", "TYO"), ("후쿠오카", "FUK"), ("삿포로", "SPK"), ("교토", "UKY"),
   ("홍콩", "HKG"), ("타이베이", "TPE"), ("방콕", "BKK"), ("싱가포르", "SIN"),
   ("하노이", "HAN"), ("호치민", "SGN"), ("다낭", "DAD")]

/-- `city_codes.get(city_name)` followed by `if not code: raise ValueError`.
A `None` result and an empty-string code are both falsy in Python, so both
raise; otherwise the code is returned. -/
def lookupCityCode (table : List (String × String)) (city_name : String) :
    Except String String :=
  match table.lookup city_name with
  | none => .error ("'" ++ city_name ++ "'의 도시 코드를 찾을 수 없습니다.")
  | some code =>
    if code = "" then .error ("'" ++ city_name ++ "'의 도시 코드를 찾을 수 없습니다.")
    else .ok code

def FlightSearchTool.get_city_code (city_name : String) : Except String String :=
  lookupCityCode FlightSearchTool.city_codes city_name

def HotelSearchTool.get_city_code (city_name : String) : Except String String :=
  lookupCityCode HotelSearchTool.city_codes city_name

/-! ### Generic lookup facts -/

/-- Any value produced by `List.lookup` satisfies a property that holds of
every value in the table. -/
theorem lookup_val_prop {β : Type} (p : β → Prop) :
    ∀ (l : List (String × β)), (∀ x ∈ l, p x.2) →
      ∀ a c, l.lookup a = some c → p c := by
  intro l
  induction l with
  | nil => intro _ a c h; simp [List.lookup] at h
  | cons x xs ih =>
    intro hall a c h
    rw [List.lookup] at h
    by_cases hx : (a == x.1) = true
    · simp only [hx] at h
      exact (Option.some_injective _ h) ▸ hall x (by simp)
    · simp only [Bool.not_eq_true] at hx
      simp only [hx] at h
      exact ih (fun y hy => hall y (List.mem_cons_of_mem _ hy)) a c h

theorem flight_codes_nonempty :
    ∀ x ∈ FlightSearchTool.city_codes, x.2 ≠ "" := by decide

theorem hotel_codes_nonempty :
    ∀ x ∈ HotelSearchTool.city_codes, x.2 ≠ "" := by decide

theorem lookupCityCode_found {table : List (String × String)}
    (hne : ∀ x ∈ table, x.2 ≠ "") {name code : String}
    (h : table.lookup name = some code) :
    lookupCityCode table name = .ok code := by
  have hcode : code ≠ "" := lookup_val_prop (fun c => c ≠ "") table hne name code h
  simp [lookupCityCode, h, hcode]

theorem lookupCityCode_absent {table : List (String × String)} {name : String}
    (h : table.lookup name = none) :
    lookupCityCode table name =
      .error ("'" ++ name ++ "'의 도시 코드를 찾을 수 없습니다.") := by
  simp [lookupCityCode, h]

/-! ## Claim theorems: C1, C3, C4 -/

/-- C1: for each call to `get_amadeus_token` on either tool: if the cache
holds a (truthy) token and the stored expiry timestamp — which is the
provider expiry minus the 60-second safety margin — is still in the future,
the call returns that token unchanged and performs 0 credential-exchange
requests; otherwise it performs exactly 1 credential-exchange request, and
when the exchange succeeds (status 200) it stores the returned token with
expiry `now + expires_in - 60` and returns the new token. -/
theorem C1_token_cache (st : TokenState) (now : Int) (resp : TokenResponse) :
    (∀ t, st.access_token = some t → t ≠ "" → now < st.expires_at →
      FlightSearchTool.get_amadeus_token st now resp = (.ok (t, st), 0) ∧
      HotelSearchTool.get_amadeus_token st now resp = (.ok (t, st), 0)) ∧
    (¬ (pyTruthyToken st.access_token = true ∧ now < st.expires_at) →
      (FlightSearchTool.get_amadeus_token st now resp).2 = 1 ∧
      (HotelSearchTool.get_amadeus_token st now resp).2 = 1 ∧
      (resp.status_code = 200 →
        FlightSearchTool.get_amadeus_token st now resp =
          (.ok (resp.access_token,
            { access_token := some resp.access_token,
              expires_at := now + resp.expires_in - 60 }), 1) ∧
        HotelSearchTool.get_amadeus_token st now resp =
          (.ok (resp.access_token,
            { access_token := some resp.access_token,
              expires_at := now + resp.expires_in - 60 }), 1))) := by
  constructor
  · intro t ht hne hlt
    have htr : pyTruthyToken st.access_token = true := by
      simp [pyTruthyToken, ht, hne]
    constructor
    · simp [FlightSearchTool.get_amadeus_token, htr, hlt, ht]
      intro hf
      simp [pyTruthyToken, hne] at hf
    · simp [HotelSearchTool.get_amadeus_token, htr, hlt, ht]
      intro hf
      simp [pyTruthyToken, hne] at hf
  · intro hcond
    refine ⟨?_, ?_, ?_⟩
    · by_cases h200 : resp.status_code = 200 <;>
        simp [FlightSearchTool.get_amadeus_token, hcond, h200]
    · by_cases h200 : resp.status_code = 200 <;>
        simp [HotelSearchTool.get_amadeus_token, hcond, h200]
    · intro h200
      constructor
      · simp [FlightSearchTool.get_amadeus_token, hcond, h200]
      · simp [HotelSearchTool.get_amadeus_token, hcond, h200]

/-- Witness for C1 at concrete inputs: a valid cached token is returned
unchanged with no exchange request, and an empty cache triggers exactly one
exchange storing expiry `50 + 1799 - 60`. -/
theorem C1_token_cache_witness :
    FlightSearchTool.get_amadeus_token ⟨some "tokA", 100⟩ 50
        ⟨200, "", "tokB", 1799⟩ = (.ok ("tokA", ⟨some "tokA", 100⟩), 0) ∧
    HotelSearchTool.get_amadeus_token ⟨none, 0⟩ 50
        ⟨200, "", "tokB", 1799⟩ =
      (.ok ("tokB", ⟨some "tokB", 50 + 1799 - 60⟩), 1) :=
  ⟨((C1_token_cache ⟨some "tokA", 100⟩ 50 ⟨200, "", "tokB", 1799⟩).1
      "tokA" rfl (by decide) (by decide)).1,
   (((C1_token_cache ⟨none, 0⟩ 50 ⟨200, "", "tokB", 1799⟩).2
      (by simp [pyTruthyToken])).2.2 rfl).2⟩

/-- C3: every key of a tool's static table resolves to exactly the code the
table maps it to, and every absent name yields a `ValueError`-style failure,
for both the flight tool's and the hotel tool's `get_city_code`. -/
theorem C3_city_code_lookup (name : String) :
    (∀ code, FlightSearchTool.city_codes.lookup name = some code →
      FlightSearchTool.get_city_code name = .ok code) ∧
    (FlightSearchTool.city_codes.lookup name = none →
      ∃ e, FlightSearchTool.get_city_code name = .error e) ∧
    (∀ code, HotelSearchTool.city_codes.lookup name = some code →
      HotelSearchTool.get_city_code name = .ok code) ∧
    (HotelSearchTool.city_codes.lookup name = none →
      ∃ e, HotelSearchTool.get_city_code name = .error e) := by
  refine ⟨?_, ?_, ?_, ?_⟩
  · intro code h
    exact lookupCityCode_found flight_codes_nonempty h
  · intro h
    exact ⟨_, lookupCityCode_absent h⟩
  · intro code h
    exact lookupCityCode_found hotel_codes_nonempty h
  · intro h
    exact ⟨_, lookupCityCode_absent h⟩

/-- Witness for C3 at concrete inputs: "서울" resolves to "SEL" in both
tables, and "파리" (absent from both) fails in both. -/
theorem C3_city_code_lookup_witness :
    FlightSearchTool.get_city_code "서울" = .ok "SEL" ∧
    (∃ e, FlightSearchTool.get_city_code "파리" = .error e) ∧
    HotelSearchTool.get_city_code "서울" = .ok "SEL" ∧
    (∃ e, HotelSearchTool.get_city_code "파리" = .error e) :=
  ⟨(C3_city_code_lookup "서울").1 "SEL" (by decide),
   (C3_city_code_lookup "파리").2.1 (by decide),
   (C3_city_code_lookup "서울").2.2.1 "SEL" (by decide),
   (C3_city_code_lookup "파리").2.2.2 (by decide)⟩

/-- C4: the two static tables have inconsistent coverage — there is a city
name ("나고야") whose resolution succeeds in the flight tool and raises in
the hotel tool, so the two resolvers are not extensionally equal. -/
theorem C4_table_coverage_mismatch :
    ∃ name, (∃ code, FlightSearchTool.get_city_code name = .ok code) ∧
      (∃ e, HotelSearchTool.get_city_code name = .error e) ∧
      FlightSearchTool.get_city_code name ≠ HotelSearchTool.get_city_code name := by
  refine ⟨"나고야", ⟨"NGO", by decide⟩, ⟨?_, ?_⟩, by decide⟩
  · exact "'" ++ "나고야" ++ "'의 도시 코드를 찾을 수 없습니다."
  · decide

/-! ## Flight search (lines 127-186)

`FlightSearchTool._run` resolves both city names, acquires a token, GETs the
flight-offers listing, raises on non-200, returns `[]` when the `data` key is
absent or empty, and otherwise shapes each offer into a record.  The token
acquisition is modelled as an `Except String String` environment value (the
token the cached/exchanged acquisition would yield, or the failure it would
raise); the listing HTTP response is an explicit structure. -/

structure Segment where
  carrierCode : String
  number : String
  departure_at : String
  arrival_at : String
deriving DecidableEq, Repr

structure Itinerary where
  segments : List Segment
deriving DecidableEq, Repr

structure FlightOffer where
  price_total : String
  price_currency : String
  itineraries : List Itinerary
deriving DecidableEq, Repr

/-- The listing response: HTTP status, body text, and the parsed `data`
array (`none` models an absent `data` key). -/
structure FlightListingResponse where
  status_code : Nat
  text : String
  data : Option (List FlightOffer)
deriving DecidableEq, Repr

/-- The record `_run` builds per offer (keys 가격/통화/출발지/목적지/출발일/
항공사/편명/출발시간/도착시간, romanized here). -/
structure FlightInfo where
  price : String
  currency : String
  origin : String
  destination : String
  departure_date : String
  carrier : String
  flight_number : String
  departure_time : String
  arrival_time : String
deriving DecidableEq, Repr

/-- Sequential effectful map over `Except`, the shape of the loops and list
comprehensions in the source: the first raised exception aborts the whole
traversal. -/
def mapExcept {α β : Type} (f : α → Except String β) :
    List α → Except String (List β)
  | [] => .ok []
  | a :: as =>
    match f a with
    | .error e => .error e
    | .ok b =>
      match mapExcept f as with
      | .error e => .error e
      | .ok bs => .ok (b :: bs)

/-- Builds one `flight_info` record: the source indexes
`itineraries[0].segments[0]` and `segments[-1]`, which raises `IndexError`
when a list is empty. -/
def mkFlightInfo (origin_code destination_code departure_date : String)
    (offer : FlightOffer) : Except String FlightInfo :=
  match offer.itineraries.head? with
  | none => .error "IndexError"
  | some it =>
    match it.segments.head?, it.segments.getLast? with
    | some s0, some sl =>
      .ok { price := offer.price_total, currency := offer.price_currency,
            origin := origin_code, destination := destination_code,
            departure_date := departure_date,
            carrier := s0.carrierCode, flight_number := s0.number,
            departure_time := s0.departure_at, arrival_time := sl.arrival_at }
    | _, _ => .error "IndexError"

def FlightSearchTool._run (origin_city destination_city departure_date : String)
    (adults : Int) (tok : Except String String)
    (resp : FlightListingResponse) : Except String (List FlightInfo) :=
  match FlightSearchTool.get_city_code origin_city with
  | .error e => .error e
  | .ok origin_code =>
    match FlightSearchTool.get_city_code destination_city with
    | .error e => .error e
    | .ok destination_code =>
      match tok with
      | .error e => .error e
      | .ok _ =>
        if resp.status_code ≠ 200 then
          .error ("항공편 조회 실패: " ++ resp.text)
        else
          match resp.data with
          | none => .ok []
          | some offers =>
            if offers.length = 0 then .ok []
            else mapExcept
              (mkFlightInfo origin_code destination_code departure_date) offers

/-! ## Hotel search (lines 285-375) -/

/-- One entry of the by-city listing's `data` array; the code reads only
`hotelId`. -/
structure HotelListing where
  hotelId : String
deriving DecidableEq, Repr

/-- The by-city listing response: status and the parsed `data` array
(`none` models an absent `data` key; the code uses `.get("data", [])`). -/
structure HotelListingResponse where
  status_code : Nat
  data : Option (List HotelListing)
deriving DecidableEq, Repr

/-- One entry of the hotel-offers response's `data` array, with the fields
the code reads: `hotel.name` and the `offers` array entries' room
description text and price. -/
structure OfferDetail where
  room_description_text : String
  price_total : String
  price_currency : String
deriving DecidableEq, Repr

structure HotelOfferData where
  hotel_name : String
  offers : List OfferDetail
deriving DecidableEq, Repr

structure HotelOffersResponse where
  status_code : Nat
  data : Option (List HotelOfferData)
deriving DecidableEq, Repr

/-- The record `_run` builds per hotel. -/
structure HotelInfo where
  hotel_name : String
  check_in : String
  check_out : String
  room_description : String
  total_price : String
  currency : String
deriving DecidableEq, Repr

/-- `search_hotels_by_city` (lines 285-304): acquires a token (raising on
auth failure), then on a non-200 listing response returns `[]` — it does NOT
raise — and otherwise returns `data` (defaulting to `[]`). -/
def HotelSearchTool.search_hotels_by_city (tok : Except String String)
    (resp : HotelListingResponse) : Except String (List HotelListing) :=
  match tok with
  | .error e => .error e
  | .ok _ =>
    if resp.status_code ≠ 200 then .ok []
    else .ok (resp.data.getD [])

/-- `search_hotel_offers` (lines 306-337): acquires a token, returns `None`
on a non-200 response, the first `data` entry when `data` is present and
non-empty, and `None` otherwise. -/
def HotelSearchTool.search_hotel_offers (tok : Except String String)
    (resp : HotelOffersResponse) : Except String (Option HotelOfferData) :=
  match tok with
  | .error e => .error e
  | .ok _ =>
    if resp.status_code ≠ 200 then .ok none
    else
      match resp.data with
      | some (d :: _) => .ok (some d)
      | _ => .ok none

/-- The per-candidate loop of `HotelSearchTool._run` (lines 361-373): for
each listed hotel, fetch its offer; a `None` offer (failed or empty price
lookup) is skipped; a present offer is shaped into a record, where
`offers[0]` raises `IndexError` on an empty `offers` array. -/
def HotelSearchTool.processHotels (tok : Except String String)
    (check_in_date check_out_date : String)
    (offers : String → HotelOffersResponse) :
    List HotelListing → Except String (List HotelInfo)
  | [] => .ok []
  | hl :: rest =>
    match HotelSearchTool.search_hotel_offers tok (offers hl.hotelId) with
    | .error e => .error e
    | .ok none =>
      HotelSearchTool.processHotels tok check_in_date check_out_date offers rest
    | .ok (some d) =>
      match d.offers with
      | [] => .error "IndexError"
      | o :: _ =>
        match HotelSearchTool.processHotels tok check_in_date check_out_date
            offers rest with
        | .error e => .error e
        | .ok infos =>
          .ok ({ hotel_name := d.hotel_name, check_in := check_in_date,
                 check_out := check_out_date,
                 room_description := o.room_description_text,
                 total_price := o.price_total,
                 currency := o.price_currency } :: infos)

/-- `HotelSearchTool._run` (lines 339-375): resolve the city, list its
hotels, truncate to `max_hotels`, and run the per-candidate price loop.
`offers` maps a hotelId to the offers response its price request would
get. -/
def HotelSearchTool._run (city_name check_in_date check_out_date : String)
    (adults : Int) (max_hotels : Nat) (tok : Except String String)
    (listing : HotelListingResponse)
    (offers : String → HotelOffersResponse) : Except String (List HotelInfo) :=
  match HotelSearchTool.get_city_code city_name with
  | .error e => .error e
  | .ok _city_code =>
    match HotelSearchTool.search_hotels_by_city tok listing with
    | .error e => .error e
    | .ok city_hotels =>
      HotelSearchTool.processHotels tok check_in_date check_out_date offers
        (city_hotels.take max_hotels)

/-! ## Claim theorems: C2, C5, C7 -/

/-- C2 counterexample: the claim says a non-200 status on the primary
listing request raises for hotel search too, but
`HotelSearchTool.search_hotels_by_city` returns `[]` on non-200, so `_run`
returns `.ok []` — a value, not an exception — on a 500 listing response
with one listed hotel and working per-hotel price lookups. -/
theorem C2_hotel_counterexample :
    (500 : Nat) ≠ 200 ∧
    HotelSearchTool._run "서울" "2025-04-25" "2025-04-26" 1 10 (.ok "tok")
        { status_code := 500, data := some [⟨"H1"⟩] }
        (fun _ => { status_code := 200,
                    data := some [⟨"Hotel", [⟨"room", "100000", "KRW"⟩]⟩] }) =
      .ok [] :=
  ⟨by decide, by decide⟩

/-- C2 amended: a non-200 status on the primary listing request raises for
flight search, but for hotel search it makes the listing step yield the
empty hotel list, so `_run` returns `.ok []` without raising (given the
city resolves and the token is available). -/
theorem C2_primary_listing_status (origin destination dep : String)
    (adults : Int) (t : String) (fresp : FlightListingResponse)
    (city ci co : String) (adults2 : Int) (mh : Nat)
    (listing : HotelListingResponse) (offers : String → HotelOffersResponse)
    (oc dc cc : String)
    (h1 : FlightSearchTool.get_city_code origin = .ok oc)
    (h2 : FlightSearchTool.get_city_code destination = .ok dc)
    (h3 : fresp.status_code ≠ 200)
    (h4 : HotelSearchTool.get_city_code city = .ok cc)
    (h5 : listing.status_code ≠ 200) :
    FlightSearchTool._run origin destination dep adults (.ok t) fresp =
      .error ("항공편 조회 실패: " ++ fresp.text) ∧
    HotelSearchTool._run city ci co adults2 mh (.ok t) listing offers =
      .ok [] := by
  constructor
  · simp [FlightSearchTool._run, h1, h2, h3]
  · simp [HotelSearchTool._run, h4, HotelSearchTool.search_hotels_by_city, h5,
          HotelSearchTool.processHotels]

/-- Witness for the amended C2 at concrete inputs: a 500 flight listing
raises, a 500 hotel listing yields the empty result. -/
theorem C2_primary_listing_status_witness :
    FlightSearchTool._run "인천" "오사카" "2025-04-25" 1 (.ok "tok")
        { status_code := 500, text := "boom", data := none } =
      .error ("항공편 조회 실패: " ++ "boom") ∧
    HotelSearchTool._run "도쿄" "2025-04-25" "2025-04-26" 2 10 (.ok "tok")
        { status_code := 503, data := some [⟨"H1"⟩, ⟨"H2"⟩] }
        (fun _ => { status_code := 200, data := none }) =
      .ok [] :=
  C2_primary_listing_status "인천" "오사카" "2025-04-25" 1 "tok"
    { status_code := 500, text := "boom", data := none }
    "도쿄" "2025-04-25" "2025-04-26" 2 10
    { status_code := 503, data := some [⟨"H1"⟩, ⟨"H2"⟩] }
    (fun _ => { status_code := 200, data := none })
    "ICN" "OSA" "TYO" (by decide) (by decide) (by decide) (by decide) (by decide)

/-- A per-candidate price lookup that "fails": non-200 status, absent
`data` key, or empty `data` array.  In all three cases
`search_hotel_offers` yields `None`. -/
def offerRespFailed (r : HotelOffersResponse) : Prop :=
  r.status_code ≠ 200 ∨ r.data = none ∨ r.data = some []

theorem search_hotel_offers_failed (t : String) {r : HotelOffersResponse}
    (h : offerRespFailed r) :
    HotelSearchTool.search_hotel_offers (.ok t) r = .ok none := by
  rcases h with h | h | h
  · simp [HotelSearchTool.search_hotel_offers, h]
  · by_cases h200 : r.status_code = 200 <;>
      simp [HotelSearchTool.search_hotel_offers, h, h200]
  · by_cases h200 : r.status_code = 200 <;>
      simp [HotelSearchTool.search_hotel_offers, h, h200]

/-- Removing a candidate whose price lookup yields `None` from anywhere in
the candidate list does not change the result of the per-candidate loop. -/
theorem processHotels_skip (t ci co : String)
    (offers : String → HotelOffersResponse) (h : HotelListing)
    (hfail : HotelSearchTool.search_hotel_offers (.ok t) (offers h.hotelId) =
      .ok none) :
    ∀ pre post : List HotelListing,
      HotelSearchTool.processHotels (.ok t) ci co offers (pre ++ h :: post) =
        HotelSearchTool.processHotels (.ok t) ci co offers (pre ++ post) := by
  intro pre
  induction pre with
  | nil =>
    intro post
    simp [HotelSearchTool.processHotels, hfail]
  | cons x xs ih =>
    intro post
    simp only [List.cons_append, HotelSearchTool.processHotels, List.append_eq]
    rw [ih post]

/-- C5: during hotel search, a candidate whose per-candidate price request
fails (non-200 or no data) is silently omitted: the result of `_run` on a
listing containing that candidate equals the result on the listing without
it, with all remaining candidates still processed; in particular the
per-candidate failure never raises. -/
theorem C5_partial_failure_tolerated (city ci co : String) (adults : Int)
    (max_hotels : Nat) (t cc : String)
    (offers : String → HotelOffersResponse)
    (pre post : List HotelListing) (h : HotelListing)
    (hcity : HotelSearchTool.get_city_code city = .ok cc)
    (hlen : (pre ++ h :: post).length ≤ max_hotels)
    (hfail : offerRespFailed (offers h.hotelId)) :
    HotelSearchTool._run city ci co adults max_hotels (.ok t)
        { status_code := 200, data := some (pre ++ h :: post) } offers =
      HotelSearchTool._run city ci co adults max_hotels (.ok t)
        { status_code := 200, data := some (pre ++ post) } offers := by
  have hlen2 : (pre ++ post).length ≤ max_hotels := by
    simp only [List.length_append, List.length_cons] at hlen ⊢
    omega
  have hskip := processHotels_skip t ci co offers h
    (search_hotel_offers_failed t hfail) pre post
  simp [HotelSearchTool._run, hcity, HotelSearchTool.search_hotels_by_city,
        List.take_of_length_le hlen, List.take_of_length_le hlen2, hskip]

/-- Candidate-to-offers map used by concrete witnesses: hotel "B"'s price
request returns a 500, every other hotel has a valid offer. -/
def sampleOffers : String → HotelOffersResponse := fun hid =>
  if hid = "B" then { status_code := 500, data := none }
  else { status_code := 200,
         data := some [⟨"Hotel", [⟨"room", "100000", "KRW"⟩]⟩] }

/-- Witness for C5 at concrete inputs: dropping failed candidate "B" from
the listing leaves the search result unchanged. -/
theorem C5_partial_failure_tolerated_witness :
    HotelSearchTool._run "서울" "2025-04-25" "2025-04-26" 1 10 (.ok "t")
        { status_code := 200, data := some [⟨"A"⟩, ⟨"B"⟩] } sampleOffers =
      HotelSearchTool._run "서울" "2025-04-25" "2025-04-26" 1 10 (.ok "t")
        { status_code := 200, data := some [⟨"A"⟩] } sampleOffers :=
  C5_partial_failure_tolerated "서울" "2025-04-25" "2025-04-26" 1 10 "t" "SEL"
    sampleOffers [⟨"A"⟩] [] ⟨"B"⟩ (by decide) (by decide)
    (Or.inl (by decide))

/-- The per-candidate loop never returns more records than it was given
candidates. -/
theorem processHotels_length_le (tok : Except String String) (ci co : String)
    (offers : String → HotelOffersResponse) :
    ∀ l r, HotelSearchTool.processHotels tok ci co offers l = .ok r →
      r.length ≤ l.length := by
  intro l
  induction l with
  | nil =>
    intro r h
    simp only [HotelSearchTool.processHotels] at h
    cases h
    simp
  | cons x xs ih =>
    intro r h
    simp only [HotelSearchTool.processHotels] at h
    split at h
    · cases h
    · exact le_trans (ih r h) (Nat.le_succ _)
    · split at h
      · cases h
      · split at h
        · cases h
        · cases h
          simp only [List.length_cons]
          exact Nat.succ_le_succ (ih _ (by assumption))

/-- C7: every successful hotel search returns at most `max_hotels` records,
regardless of how many hotels the listing response contains. -/
theorem C7_max_hotels_cap (city ci co : String) (adults : Int)
    (max_hotels : Nat) (tok : Except String String)
    (listing : HotelListingResponse)
    (offers : String → HotelOffersResponse) (r : List HotelInfo)
    (h : HotelSearchTool._run city ci co adults max_hotels tok listing offers =
      .ok r) :
    r.length ≤ max_hotels := by
  unfold HotelSearchTool._run at h
  split at h
  · cases h
  · split at h
    · cases h
    · calc r.length ≤ _ := processHotels_length_le tok ci co offers _ r h
        _ ≤ max_hotels := by
          simp only [List.length_take]
          exact Nat.min_le_left _ _

/-- Witness for C7 at concrete inputs: two listed hotels, `max_hotels = 1`,
one record returned. -/
theorem C7_max_hotels_cap_witness :
    HotelSearchTool._run "서울" "2025-04-25" "2025-04-26" 1 1 (.ok "t")
        { status_code := 200, data := some [⟨"A"⟩, ⟨"C"⟩] } sampleOffers =
      .ok [⟨"Hotel", "2025-04-25", "2025-04-26", "room", "100000", "KRW"⟩] ∧
    [(⟨"Hotel", "2025-04-25", "2025-04-26", "room", "100000",
       "KRW"⟩ : HotelInfo)].length ≤ 1 :=
  ⟨by decide,
   C7_max_hotels_cap "서울" "2025-04-25" "2025-04-26" 1 1 (.ok "t")
     { status_code := 200, data := some [⟨"A"⟩, ⟨"C"⟩] } sampleOffers
     [⟨"Hotel", "2025-04-25", "2025-04-26", "room", "100000", "KRW"⟩]
     (by decide)⟩

/-! ## Nearby-place search (lines 378-522)

Three chained Google Places calls.  Each environment function maps the
request the code would send (query string / coordinates and radius /
place id) to the response it would get.  Coordinates are only passed
through from one response into the next request, so they are modelled as
integers. -/

structure Geometry where
  lat : Int
  lng : Int
deriving DecidableEq, Repr

/-- Text-search response: `status` and the per-result
`geometry.location`. -/
structure TextSearchResponse where
  status : String
  results : List Geometry
deriving DecidableEq, Repr

structure NearbyPlace where
  place_id : String
deriving DecidableEq, Repr

structure NearbySearchResponse where
  status : String
  results : List NearbyPlace
deriving DecidableEq, Repr

/-- One review of the details response; the code reads `text` and `rating`
with `.get`, so both may be absent. -/
structure Review where
  text : Option String
  rating : Option Int
deriving DecidableEq, Repr

/-- The `result` object of the details response, with the fields the code
reads via `.get`; `weekday_text` flattens `opening_hours.weekday_text`
(absent at either level means absent); the float `rating` is passed through
untouched and modelled as an integer. -/
structure PlaceDetailResult where
  name : Option String
  formatted_address : Option String
  formatted_phone_number : Option String
  website : Option String
  weekday_text : Option (List String)
  rating : Option Int
  reviews : List Review
deriving DecidableEq, Repr

structure PlaceDetailsResponse where
  status : String
  result : PlaceDetailResult
deriving DecidableEq, Repr

/-- The record `get_place_details` builds (keys 이름/주소/전화번호/웹사이트/
영업시간/평점/리뷰, romanized); `none` stands for the "정보 없음" default the
code substitutes for an absent value. -/
structure PlaceInfo where
  name : Option String
  address : Option String
  phone : Option String
  website : Option String
  hours : Option (List String)
  rating : Option Int
  reviews : List Review
deriving DecidableEq, Repr

/-- `get_location_by_name` (lines 419-447): raises on a non-"OK" status,
otherwise returns `results[0].geometry.location` as a (lat, lng) pair
(`results[0]` raises `IndexError` on an empty list). -/
def NearbyPlacesTool.get_location_by_name
    (textsearch : String → TextSearchResponse) (place_name : String) :
    Except String (Int × Int) :=
  if (textsearch place_name).status ≠ "OK" then
    .error ("장소 검색 실패: " ++ (textsearch place_name).status)
  else
    match (textsearch place_name).results with
    | [] => .error "IndexError"
    | g :: _ => .ok (g.lat, g.lng)

/-- `find_nearby_places` (lines 449-479): raises on a non-"OK" status,
otherwise returns `results[:5]`. -/
def NearbyPlacesTool.find_nearby_places
    (nearbysearch : Int × Int → Int → NearbySearchResponse)
    (location : Int × Int) (radius : Int) : Except String (List NearbyPlace) :=
  if (nearbysearch location radius).status ≠ "OK" then
    .error ("주변 장소 검색 실패: " ++ (nearbysearch location radius).status)
  else .ok ((nearbysearch location radius).results.take 5)

/-- `get_place_details` (lines 481-522): raises on a non-"OK" status,
otherwise shapes the `result` object, keeping `reviews[:3]`. -/
def NearbyPlacesTool.get_place_details
    (detailsearch : String → PlaceDetailsResponse) (place_id : String) :
    Except String PlaceInfo :=
  if (detailsearch place_id).status ≠ "OK" then
    .error ("세부 정보 조회 실패: " ++ (detailsearch place_id).status)
  else
    .ok { name := (detailsearch place_id).result.name,
          address := (detailsearch place_id).result.formatted_address,
          phone := (detailsearch place_id).result.formatted_phone_number,
          website := (detailsearch place_id).result.website,
          hours := (detailsearch place_id).result.weekday_text,
          rating := (detailsearch place_id).result.rating,
          reviews := (detailsearch place_id).result.reviews.take 3 }

/-- `NearbyPlacesTool._run` (lines 399-417): chain the three stages; the
detail fetches run as a list comprehension, so the first failure aborts the
whole call. -/
def NearbyPlacesTool._run (textsearch : String → TextSearchResponse)
    (nearbysearch : Int × Int → Int → NearbySearchResponse)
    (detailsearch : String → PlaceDetailsResponse)
    (place_name : String) (radius : Int) : Except String (List PlaceInfo) :=
  match NearbyPlacesTool.get_location_by_name textsearch place_name with
  | .error e => .error e
  | .ok location =>
    match NearbyPlacesTool.find_nearby_places nearbysearch location radius with
    | .error e => .error e
    | .ok nearby_places =>
      mapExcept
        (fun p => NearbyPlacesTool.get_place_details detailsearch p.place_id)
        nearby_places

/-! ## Currency conversion (lines 548-588) -/

/-- The pair-conversion response: HTTP status, body text, and the parsed
`result` / `error-type` / `conversion_result` / `conversion_rate` fields;
the float payloads are passed through untouched and modelled as
integers. -/
structure ExchangeResponse where
  status_code : Nat
  text : String
  result : String
  error_type : Option String
  conversion_result : Int
  conversion_rate : Int
deriving DecidableEq, Repr

/-- The record `ExchangeRateTool._run` returns. -/
structure ConversionInfo where
  from_currency : String
  to_currency : String
  original_amount : Int
  converted_amount : Int
  conversion_rate : Int
deriving DecidableEq, Repr

def ExchangeRateTool._run (from_currency to_currency : String) (amount : Int)
    (resp : ExchangeResponse) : Except String ConversionInfo :=
  if resp.status_code ≠ 200 then .error ("환율 정보 조회 실패: " ++ resp.text)
  else if resp.result ≠ "success" then
    .error ("환율 조회에 실패했습니다: " ++ resp.error_type.getD "unknown error")
  else
    .ok { from_currency := from_currency, to_currency := to_currency,
          original_amount := amount,
          converted_amount := resp.conversion_result,
          conversion_rate := resp.conversion_rate }

/-! ### Facts about `mapExcept` -/

theorem mapExcept_length {α β : Type} (f : α → Except String β) :
    ∀ l r, mapExcept f l = .ok r → r.length = l.length := by
  intro l
  induction l with
  | nil =>
    intro r h
    simp only [mapExcept] at h
    cases h
    rfl
  | cons a as ih =>
    intro r h
    simp only [mapExcept] at h
    split at h
    · cases h
    · split at h
      · cases h
      · cases h
        simp only [List.length_cons]
        rw [ih _ (by assumption)]

theorem mapExcept_mem {α β : Type} (f : α → Except String β) :
    ∀ l r, mapExcept f l = .ok r → ∀ b ∈ r, ∃ a ∈ l, f a = .ok b := by
  intro l
  induction l with
  | nil =>
    intro r h b hb
    simp only [mapExcept] at h
    cases h
    simp at hb
  | cons a as ih =>
    intro r h b hb
    simp only [mapExcept] at h
    split at h
    · cases h
    · split at h
      · cases h
      · cases h
        rcases List.mem_cons.mp hb with hb | hb
        · exact ⟨a, by simp, by rw [hb]; assumption⟩
        · rcases ih _ (by assumption) b hb with ⟨a2, ha2, hfa2⟩
          exact ⟨a2, List.mem_cons_of_mem _ ha2, hfa2⟩

theorem mapExcept_fail {α β : Type} (f : α → Except String β) :
    ∀ l a, a ∈ l → (∃ e, f a = .error e) →
      ∃ e2, mapExcept f l = .error e2 := by
  intro l
  induction l with
  | nil =>
    intro a ha
    simp at ha
  | cons x xs ih =>
    intro a ha hfa
    rcases List.mem_cons.mp ha with rfl | ha
    · rcases hfa with ⟨e, he⟩
      exact ⟨e, by simp only [mapExcept]; rw [he]⟩
    · rcases ih a ha hfa with ⟨e, he⟩
      cases hx : f x with
      | error ex => exact ⟨ex, by simp only [mapExcept]; rw [hx]⟩
      | ok b => exact ⟨e, by simp only [mapExcept]; rw [hx, he]⟩

theorem find_nearby_places_length
    (nearbysearch : Int × Int → Int → NearbySearchResponse)
    (location : Int × Int) (radius : Int) (places : List NearbyPlace)
    (h : NearbyPlacesTool.find_nearby_places nearbysearch location radius =
      .ok places) : places.length ≤ 5 := by
  unfold NearbyPlacesTool.find_nearby_places at h
  split at h
  · cases h
  · cases h
    simp only [List.length_take]
    exact Nat.min_le_left _ _

/-! ## Claim theorems: C6, C8, C9, C10 -/

/-- C6: nearby-place search fails fast — a non-"OK" provider status at the
free-text lookup, at the nearby search, or at any reached per-place detail
fetch makes `_run` raise, so no partial result list is returned. -/
theorem C6_fail_fast (textsearch : String → TextSearchResponse)
    (nearbysearch : Int × Int → Int → NearbySearchResponse)
    (detailsearch : String → PlaceDetailsResponse)
    (place_name : String) (radius : Int) :
    ((textsearch place_name).status ≠ "OK" →
      ∃ e, NearbyPlacesTool._run textsearch nearbysearch detailsearch
        place_name radius = .error e) ∧
    (∀ loc, NearbyPlacesTool.get_location_by_name textsearch place_name =
        .ok loc →
      (nearbysearch loc radius).status ≠ "OK" →
      ∃ e, NearbyPlacesTool._run textsearch nearbysearch detailsearch
        place_name radius = .error e) ∧
    (∀ loc places,
      NearbyPlacesTool.get_location_by_name textsearch place_name = .ok loc →
      NearbyPlacesTool.find_nearby_places nearbysearch loc radius =
        .ok places →
      ∀ p ∈ places, (detailsearch p.place_id).status ≠ "OK" →
      ∃ e, NearbyPlacesTool._run textsearch nearbysearch detailsearch
        place_name radius = .error e) := by
  refine ⟨?_, ?_, ?_⟩
  · intro h
    exact ⟨"장소 검색 실패: " ++ (textsearch place_name).status,
      by simp [NearbyPlacesTool._run,
        NearbyPlacesTool.get_location_by_name, h]⟩
  · intro loc h1 h2
    exact ⟨"주변 장소 검색 실패: " ++ (nearbysearch loc radius).status,
      by simp [NearbyPlacesTool._run, h1,
        NearbyPlacesTool.find_nearby_places, h2]⟩
  · intro loc places h1 h2 p hp hst
    have hf : ∃ e, NearbyPlacesTool.get_place_details detailsearch
        p.place_id = .error e :=
      ⟨"세부 정보 조회 실패: " ++ (detailsearch p.place_id).status,
        by simp [NearbyPlacesTool.get_place_details, hst]⟩
    rcases mapExcept_fail
        (fun q => NearbyPlacesTool.get_place_details detailsearch q.place_id)
        places p hp hf with ⟨e, he⟩
    exact ⟨e, by simp [NearbyPlacesTool._run, h1, h2, he]⟩

/-- Text-search environment whose lookup fails. -/
def badText : String → TextSearchResponse := fun _ => ⟨"ZERO_RESULTS", []⟩

/-- Text-search environment whose lookup succeeds at (1, 2). -/
def okText : String → TextSearchResponse := fun _ => ⟨"OK", [⟨1, 2⟩]⟩

/-- Nearby-search environment that fails. -/
def badNearby : Int × Int → Int → NearbySearchResponse :=
  fun _ _ => ⟨"OVER_QUERY_LIMIT", []⟩

/-- Nearby-search environment returning one place. -/
def okNearby : Int × Int → Int → NearbySearchResponse :=
  fun _ _ => ⟨"OK", [⟨"P1"⟩]⟩

/-- Details environment that fails for every place. -/
def badDetails : String → PlaceDetailsResponse :=
  fun _ => ⟨"NOT_FOUND", ⟨none, none, none, none, none, none, []⟩⟩

/-- Details environment that succeeds for every place. -/
def okDetails : String → PlaceDetailsResponse :=
  fun _ => ⟨"OK", ⟨some "남산타워", some "서울", none, none, none, some 4, []⟩⟩

/-- Witness for C6 at concrete inputs: a failure at each of the three
stages makes the whole search raise. -/
theorem C6_fail_fast_witness :
    (∃ e, NearbyPlacesTool._run badText okNearby okDetails "서울역" 1000 =
      .error e) ∧
    (∃ e, NearbyPlacesTool._run okText badNearby okDetails "서울역" 1000 =
      .error e) ∧
    (∃ e, NearbyPlacesTool._run okText okNearby badDetails "서울역" 1000 =
      .error e) :=
  ⟨(C6_fail_fast badText okNearby okDetails "서울역" 1000).1 (by decide),
   (C6_fail_fast okText badNearby okDetails "서울역" 1000).2.1 (1, 2)
     (by decide) (by decide),
   (C6_fail_fast okText okNearby badDetails "서울역" 1000).2.2 (1, 2)
     [⟨"P1"⟩] (by decide) (by decide) ⟨"P1"⟩ (by decide) (by decide)⟩

/-- C8: every successful nearby-place search returns at most 5 places,
regardless of how many results the provider's nearby-search response
contains. -/
theorem C8_nearby_cap (textsearch : String → TextSearchResponse)
    (nearbysearch : Int × Int → Int → NearbySearchResponse)
    (detailsearch : String → PlaceDetailsResponse)
    (place_name : String) (radius : Int) (r : List PlaceInfo)
    (h : NearbyPlacesTool._run textsearch nearbysearch detailsearch
      place_name radius = .ok r) : r.length ≤ 5 := by
  unfold NearbyPlacesTool._run at h
  split at h
  · cases h
  · split at h
    · cases h
    · have h5 := find_nearby_places_length nearbysearch _ radius _
        (by assumption)
      have hlen := mapExcept_length _ _ _ h
      omega

/-- Nearby-search environment with 7 results. -/
def bigNearby : Int × Int → Int → NearbySearchResponse :=
  fun _ _ => ⟨"OK", [⟨"P1"⟩, ⟨"P2"⟩, ⟨"P3"⟩, ⟨"P4"⟩, ⟨"P5"⟩, ⟨"P6"⟩, ⟨"P7"⟩]⟩

/-- The place record `okDetails` induces. -/
def samplePlaceInfo : PlaceInfo :=
  ⟨some "남산타워", some "서울", none, none, none, some 4, []⟩

/-- Witness for C8 at a concrete input: 7 provider results, 5 returned. -/
theorem C8_nearby_cap_witness :
    NearbyPlacesTool._run okText bigNearby okDetails "서울역" 1000 =
      .ok [samplePlaceInfo, samplePlaceInfo, samplePlaceInfo,
           samplePlaceInfo, samplePlaceInfo] ∧
    [samplePlaceInfo, samplePlaceInfo, samplePlaceInfo, samplePlaceInfo,
     samplePlaceInfo].length ≤ 5 :=
  ⟨by decide,
   C8_nearby_cap okText bigNearby okDetails "서울역" 1000
     [samplePlaceInfo, samplePlaceInfo, samplePlaceInfo, samplePlaceInfo,
      samplePlaceInfo] (by decide)⟩

/-- C9: currency conversion raises on a non-200 response or a non-"success"
`result` field and produces no record; a record is returned exactly when
both checks pass, carrying through the provider's converted amount and
rate. -/
theorem C9_conversion_checks (from_currency to_currency : String)
    (amount : Int) (resp : ExchangeResponse) :
    (resp.status_code ≠ 200 ∨ resp.result ≠ "success" →
      ∃ e, ExchangeRateTool._run from_currency to_currency amount resp =
        .error e) ∧
    (resp.status_code = 200 → resp.result = "success" →
      ExchangeRateTool._run from_currency to_currency amount resp =
        .ok ⟨from_currency, to_currency, amount, resp.conversion_result,
             resp.conversion_rate⟩) := by
  constructor
  · intro h
    rcases h with h | h
    · exact ⟨"환율 정보 조회 실패: " ++ resp.text,
        by simp [ExchangeRateTool._run, h]⟩
    · by_cases h200 : resp.status_code = 200
      · exact ⟨"환율 조회에 실패했습니다: " ++ resp.error_type.getD "unknown error",
          by simp [ExchangeRateTool._run, h200, h]⟩
      · exact ⟨"환율 정보 조회 실패: " ++ resp.text,
          by simp [ExchangeRateTool._run, h200]⟩
  · intro h200 hsucc
    simp [ExchangeRateTool._run, h200, hsucc]

/-- Witness for C9 at concrete inputs: a 404 raises, a logical failure
raises, and a successful pair conversion yields the record. -/
theorem C9_conversion_checks_witness :
    (∃ e, ExchangeRateTool._run "USD" "KRW" 100
      ⟨404, "not found", "error", some "unsupported-code", 0, 0⟩ =
      .error e) ∧
    (∃ e, ExchangeRateTool._run "USD" "KRW" 100
      ⟨200, "", "error", some "unsupported-code", 0, 0⟩ = .error e) ∧
    ExchangeRateTool._run "USD" "KRW" 100
        ⟨200, "", "success", none, 145000, 1450⟩ =
      .ok ⟨"USD", "KRW", 100, 145000, 1450⟩ :=
  ⟨(C9_conversion_checks "USD" "KRW" 100
      ⟨404, "not found", "error", some "unsupported-code", 0, 0⟩).1
      (Or.inl (by decide)),
   (C9_conversion_checks "USD" "KRW" 100
      ⟨200, "", "error", some "unsupported-code", 0, 0⟩).1
      (Or.inr (by decide)),
   (C9_conversion_checks "USD" "KRW" 100
      ⟨200, "", "success", none, 145000, 1450⟩).2 rfl rfl⟩

/-- C10: every place-detail record returned by nearby-place search carries
at most 3 reviews, even when the provider's detail response has more. -/
theorem C10_reviews_cap (textsearch : String → TextSearchResponse)
    (nearbysearch : Int × Int → Int → NearbySearchResponse)
    (detailsearch : String → PlaceDetailsResponse)
    (place_name : String) (radius : Int) (r : List PlaceInfo)
    (h : NearbyPlacesTool._run textsearch nearbysearch detailsearch
      place_name radius = .ok r) :
    ∀ info ∈ r, info.reviews.length ≤ 3 := by
  unfold NearbyPlacesTool._run at h
  split at h
  · cases h
  · split at h
    · cases h
    · intro info hinfo
      rcases mapExcept_mem _ _ _ h info hinfo with ⟨p, _hp, hfp⟩
      unfold NearbyPlacesTool.get_place_details at hfp
      split at hfp
      · cases hfp
      · cases hfp
        simp only [List.length_take]
        exact Nat.min_le_left _ _

/-- Details environment with 5 reviews per place. -/
def manyReviewDetails : String → PlaceDetailsResponse :=
  fun _ => ⟨"OK", ⟨some "남산타워", none, none, none, none, none,
    [⟨some "r1", some 5⟩, ⟨some "r2", some 4⟩, ⟨some "r3", some 3⟩,
     ⟨some "r4", some 2⟩, ⟨some "r5", some 1⟩]⟩⟩

/-- The place record `manyReviewDetails` induces: only the first 3 of its 5
reviews survive. -/
def sampleReviewedInfo : PlaceInfo :=
  ⟨some "남산타워", none, none, none, none, none,
   [⟨some "r1", some 5⟩, ⟨some "r2", some 4⟩, ⟨some "r3", some 3⟩]⟩

/-- Witness for C10 at a concrete input: the provider reports 5 reviews,
the returned record keeps 3. -/
theorem C10_reviews_cap_witness :
    NearbyPlacesTool._run okText okNearby manyReviewDetails "서울역" 1000 =
      .ok [sampleReviewedInfo] ∧
    ∀ info ∈ [sampleReviewedInfo], info.reviews.length ≤ 3 :=
  ⟨by decide,
   C10_reviews_cap okText okNearby manyReviewDetails "서울역" 1000
     [sampleReviewedInfo] (by decide)⟩

end TravelMaster
